import Mathlib

/-!
Verification of the Inspectra report compositing engine (src/App.tsx, src/types.ts):
a shallow embedding of the coordinate mapper, pin renderer, plan compositor,
detail-section layout engine and document assembler, together with theorems
settling the specification claims about them.

Numbers that the source manipulates as JS floats (coordinates, page positions,
image dimensions) are modelled as rationals; the arithmetic involved is exact
on the values of interest. External capabilities (image decoding, the PDF
library's wrapped-line measurement) are passed in as explicit parameters.
-/

/-- Priority levels of an observation (src/types.ts, `Priority`). -/
inductive Priority
  | low
  | medium
  | high
  | critical
deriving DecidableEq

/-- Normalized pin position, percentages of the plan image (src/types.ts, `Coordinates`). -/
structure Coordinates where
  x : ℚ
  y : ℚ
deriving DecidableEq

/-- One inspection finding (src/types.ts, `Observation`). Images are the photo
payloads (base64 strings in the source). -/
structure Observation where
  id : String
  note : String
  priority : Priority
  planId : Option String
  coords : Option Coordinates
  images : List String
  tags : List String
  trade : String
  responsibleParty : String
  recommendedAction : String
  timestamp : ℤ
deriving DecidableEq

/-- A floor plan record (src/types.ts, `FloorPlan`). -/
structure FloorPlan where
  id : String
  name : String
  imageData : String
deriving DecidableEq

/-- Project identity fields (src/types.ts, `ProjectInfo`). -/
structure ProjectInfo where
  id : String
  name : String
  location : String
  inspector : String
  emailTo : String
  lastModified : ℤ
deriving DecidableEq

/-- Weather snapshot for the cover page (src/types.ts, `WeatherData`). -/
structure WeatherData where
  temp : ℤ
  condition : String
  humidity : ℤ
  wind : ℤ
deriving DecidableEq

/-- Coordinate Mapper (src/App.tsx lines 297-298):
`px = (obs.coords.x / 100) * canvas.width`, `py = (obs.coords.y / 100) * canvas.height`. -/
def mapCoord (c : Coordinates) (targetWidth targetHeight : ℚ) : ℚ × ℚ :=
  (c.x / 100 * targetWidth, c.y / 100 * targetHeight)

/-- Priority colour of a pin (src/App.tsx line 300). -/
def pinColor : Priority → String
  | .critical => "#dc2626"
  | .high => "#f97316"
  | _ => "#2563eb"

/-- Display-index label of a pin (src/App.tsx line 319:
`observations.indexOf(obs) + 1`, against the full stored list). -/
def pinLabel (allObs : List Observation) (obs : Observation) : ℕ :=
  allObs.indexOf obs + 1

/-- One rendered marker (src/App.tsx lines 299-320): position, base radius,
priority colour and the numeric label. -/
structure Pin where
  px : ℚ
  py : ℚ
  size : ℚ
  color : String
  label : ℕ
deriving DecidableEq

/-- The flattened raster produced by the plan compositor: the plan's native
dimensions plus the pins drawn onto it. -/
structure RenderedPlan where
  width : ℚ
  height : ℚ
  pins : List Pin
deriving DecidableEq

/-- Plan Compositor (src/App.tsx lines 285-326, `renderPlanWithPins`). The
canvas takes the decoded image's native dimensions; every observation of
`planObs` that has coordinates gets a pin at `mapCoord`, sized
`max(width, height) * 0.015`, labelled by its index in the full stored list.
`decode` is the external image decoder (the `Image` element): `none` means the
image never fires `onload` — the source installs no `onerror` handler, so the
promise never settles in that case, which the caller models as a hang. -/
def renderPlanWithPins (decode : String → Option (ℚ × ℚ)) (allObs : List Observation)
    (plan : FloorPlan) (planObs : List Observation) : Option RenderedPlan :=
  match decode plan.imageData with
  | none => none
  | some (w, h) =>
    some { width := w, height := h,
           pins := planObs.filterMap fun obs =>
             match obs.coords with
             | none => none
             | some c =>
               some { px := (mapCoord c w h).1
                      py := (mapCoord c w h).2
                      size := max w h * (15 / 1000)
                      color := pinColor obs.priority
                      label := pinLabel allObs obs } }

/-- CLAIM C1: the pin's pixel position is exactly `px = x/100 * w`,
`py = y/100 * h`, and the mapping is scale-invariant: `px / w = x/100` and
`py / h = y/100` at every nonzero target resolution. -/
theorem C1_coordinate_mapper (c : Coordinates) (w h : ℚ) (hw : w ≠ 0) (hh : h ≠ 0) :
    mapCoord c w h = (c.x / 100 * w, c.y / 100 * h) ∧
    (mapCoord c w h).1 / w = c.x / 100 ∧
    (mapCoord c w h).2 / h = c.y / 100 := by
  refine ⟨rfl, ?_, ?_⟩
  · show c.x / 100 * w / w = c.x / 100
    field_simp
    ring
  · show c.y / 100 * h / h = c.y / 100
    field_simp
    ring

/-- Witness for C1 at coordinates (30, 40) on a 200 by 100 raster. -/
theorem C1_coordinate_mapper_witness :
    ((200 : ℚ) ≠ 0) ∧ ((100 : ℚ) ≠ 0) ∧
    (mapCoord ⟨30, 40⟩ 200 100 = ((30 : ℚ) / 100 * 200, (40 : ℚ) / 100 * 100) ∧
     (mapCoord ⟨30, 40⟩ 200 100).1 / 200 = (30 : ℚ) / 100 ∧
     (mapCoord ⟨30, 40⟩ 200 100).2 / 100 = (40 : ℚ) / 100) :=
  ⟨by norm_num, by norm_num,
   C1_coordinate_mapper ⟨30, 40⟩ 200 100 (by norm_num) (by norm_num)⟩

/-- Cells per row in a finding's image grid (src/App.tsx line 400, `imagesPerRow = 3`). -/
def imagesPerRow : ℕ := 3

/-- Side of one square image cell (src/App.tsx line 401, `imgSize = 50`). -/
def imgSize : ℚ := 50

/-- Spacing between image cells (src/App.tsx line 402, `spacing = 5`). -/
def imgSpacing : ℚ := 5

/-- Fixed height of a finding's header box (src/App.tsx line 398, `rowHeight = 40`). -/
def rowHeight : ℚ := 40

/-- Number of grid rows for `n` images (src/App.tsx line 403,
`Math.ceil(imgCount / imagesPerRow)`; on naturals the ceiling of `n / 3` is
`(n + 2) / 3`). -/
def imgRows (n : ℕ) : ℕ := (n + 2) / 3

/-- Total height of the image grid (src/App.tsx line 404,
`imgRows > 0 ? imgRows * (imgSize + spacing) : 0`). -/
def totalImgHeight (n : ℕ) : ℚ :=
  if imgRows n > 0 then (imgRows n : ℚ) * (imgSize + imgSpacing) else 0

/-- Height a finding's block claims in the page-break comparison
(src/App.tsx line 405, `totalNeeded = rowHeight + totalImgHeight + 10`). -/
def totalNeeded (n : ℕ) : ℚ := rowHeight + totalImgHeight n + 10

/-- Grid column of image `i` (src/App.tsx line 437, `colIdx = i % imagesPerRow`). -/
def imgColIdx (i : ℕ) : ℕ := i % imagesPerRow

/-- Grid row of image `i` (src/App.tsx line 436, `rowIdx = Math.floor(i / imagesPerRow)`). -/
def imgRowIdx (i : ℕ) : ℕ := i / imagesPerRow

/-- Horizontal position of image `i` (src/App.tsx line 438,
`x = 20 + colIdx * (imgSize + spacing)`). -/
def imgCellX (i : ℕ) : ℚ := 20 + (imgColIdx i : ℚ) * (imgSize + imgSpacing)

/-- Vertical position of image `i` below the cursor (src/App.tsx line 439,
`y = currentY + rowIdx * (imgSize + spacing)`). -/
def imgCellY (currentY : ℚ) (i : ℕ) : ℚ :=
  currentY + (imgRowIdx i : ℚ) * (imgSize + imgSpacing)

/-- Helper: on naturals, `(n + 2) / 3` is the ceiling of `n / 3`. -/
theorem imgRows_eq_ceil (n : ℕ) : imgRows n = ⌈(n : ℚ) / 3⌉₊ := by
  unfold imgRows
  refine (Nat.le_antisymm ?_ ?_).symm
  · refine Nat.ceil_le.mpr ?_
    rw [div_le_iff (by norm_num : (0 : ℚ) < 3)]
    have h : n ≤ (n + 2) / 3 * 3 := by omega
    exact_mod_cast h
  · have h := Nat.le_ceil ((n : ℚ) / 3)
    have h3 : (n : ℚ) ≤ (⌈(n : ℚ) / 3⌉₊ : ℚ) * 3 := by
      rw [div_le_iff (by norm_num : (0 : ℚ) < 3)] at h
      exact h
    have h4 : n ≤ ⌈(n : ℚ) / 3⌉₊ * 3 := by exact_mod_cast h3
    omega

/-- CLAIM C5: for `n ≥ 1` images the grid wraps after 3 per row — image `i`
goes to column `i mod 3` of row `⌊i / 3⌋`, at the positions the source
computes — and the total grid height is `⌈n / 3⌉ * (cellSize + spacing)`. -/
theorem C5_image_grid (n : ℕ) (hn : 1 ≤ n) :
    totalImgHeight n = (⌈(n : ℚ) / 3⌉₊ : ℚ) * (imgSize + imgSpacing) ∧
    (∀ i, imgColIdx i = i % 3 ∧ imgRowIdx i = i / 3 ∧
      imgCellX i = 20 + (i % 3 : ℕ) * (55 : ℚ) ∧
      imgCellY 0 i = (i / 3 : ℕ) * (55 : ℚ)) := by
  constructor
  · have hpos : imgRows n > 0 := by
      unfold imgRows
      omega
    rw [totalImgHeight, if_pos hpos, imgRows_eq_ceil]
  · intro i
    refine ⟨rfl, rfl, ?_, ?_⟩
    · show (20 : ℚ) + (imgColIdx i : ℚ) * (imgSize + imgSpacing) = _
      norm_num [imgColIdx, imagesPerRow, imgSize, imgSpacing]
    · show (0 : ℚ) + (imgRowIdx i : ℚ) * (imgSize + imgSpacing) = _
      norm_num [imgRowIdx, imagesPerRow, imgSize, imgSpacing]

/-- Witness for C5 at `n = 7`: grid height `3 * 55`, and the three rows hold
3, 3 and 1 images respectively. -/
theorem C5_image_grid_witness :
    (1 ≤ 7) ∧
    (totalImgHeight 7 = (⌈(7 : ℚ) / 3⌉₊ : ℚ) * (imgSize + imgSpacing) ∧
     (∀ i, imgColIdx i = i % 3 ∧ imgRowIdx i = i / 3 ∧
       imgCellX i = 20 + (i % 3 : ℕ) * (55 : ℚ) ∧
       imgCellY 0 i = (i / 3 : ℕ) * (55 : ℚ))) ∧
    ((List.range 7).filter (fun i => imgRowIdx i = 0)).length = 3 ∧
    ((List.range 7).filter (fun i => imgRowIdx i = 1)).length = 3 ∧
    ((List.range 7).filter (fun i => imgRowIdx i = 2)).length = 1 ∧
    imgRows 7 = 3 :=
  ⟨by norm_num, C5_image_grid 7 (by norm_num), by decide, by decide, by decide, by decide⟩

/-- Inputs the layout engine receives from outside the compositing core:
the PDF page height (`doc.internal.pageSize.getHeight()`), the line height the
PDF library uses when drawing a wrapped note, and the external wrapped-line
measurement (src/App.tsx line 429, `doc.splitTextToSize(note, 160).length`). -/
structure DetailParams where
  pageHeight : ℚ
  lineH : ℚ
  wrapCount : String → ℕ

/-- One finding's placed block in the detail section: the detail page it landed
on (0-based within the section), the cursor position it was drawn at, the
printed heading number, the wrapped-line count of its note and its image count. -/
structure Block where
  page : ℕ
  startY : ℚ
  num : ℕ
  noteLines : ℕ
  imgCount : ℕ
deriving DecidableEq

/-- Detail-section loop (src/App.tsx lines 397-448). For each observation, in
stored order: compute `totalNeeded` from the image count alone; if
`currentY + totalNeeded > pageHeight - 20`, start a new page with the cursor at
20; draw the block; advance the cursor by `rowHeight + 5`, plus
`totalImgHeight + 10` when there are images and `5` otherwise. -/
def detailLoop (P : DetailParams) : List Observation → ℕ → ℚ → ℕ → List Block
  | [], _, _, _ => []
  | obs :: rest, index, currentY, page =>
    let imgCount := obs.images.length
    let needed := totalNeeded imgCount
    let pgy : ℕ × ℚ :=
      if currentY + needed > P.pageHeight - 20 then (page + 1, 20) else (page, currentY)
    let nextY : ℚ :=
      pgy.2 + rowHeight + 5 + (if imgCount > 0 then totalImgHeight imgCount + 10 else 5)
    { page := pgy.1, startY := pgy.2, num := index + 1,
      noteLines := P.wrapCount obs.note, imgCount := imgCount } ::
      detailLoop P rest (index + 1) nextY pgy.1

/-- Detail section of the report (src/App.tsx lines 395-448): the loop starts
with the cursor at 30 on the first detail page. -/
def layoutDetails (P : DetailParams) (observations : List Observation) : List Block :=
  detailLoop P observations 0 30 0

/-- Bottom edge of a block's header box (src/App.tsx line 413: a rectangle of
height `rowHeight` drawn at the cursor). -/
def headerBottom (b : Block) : ℚ := b.startY + rowHeight

/-- Baseline of the last wrapped line of a block's note (src/App.tsx line 430:
the wrapped note is drawn starting at `currentY + 28`, successive lines one
line height apart). -/
def textBottom (P : DetailParams) (b : Block) : ℚ :=
  b.startY + 28 + ((b.noteLines - 1 : ℕ) : ℚ) * P.lineH

/-- Bottom edge of a block's image grid (src/App.tsx lines 432-441: images
start at `startY + rowHeight + 5` and the last row's cells end
`imgRows * 55 - 5` further down; with no images this degenerates to the
header's bottom edge). -/
def imagesBottom (b : Block) : ℚ :=
  b.startY + rowHeight + 5 + (imgRows b.imgCount : ℚ) * (imgSize + imgSpacing) - imgSpacing

/-- Lowest drawn point of a finding's block. -/
def blockBottom (P : DetailParams) (b : Block) : ℚ :=
  max (headerBottom b) (max (textBottom P b) (imagesBottom b))

/-- Helper: every block the loop emits satisfies
`startY + totalNeeded ≤ pageHeight - 20`, provided each observation's
`totalNeeded` fits a fresh page. -/
theorem detailLoop_fits (P : DetailParams) :
    ∀ (l : List Observation), (∀ o ∈ l, totalNeeded o.images.length ≤ P.pageHeight - 40) →
      ∀ (index : ℕ) (currentY : ℚ) (page : ℕ),
        ∀ b ∈ detailLoop P l index currentY page,
          b.startY + totalNeeded b.imgCount ≤ P.pageHeight - 20 := by
  intro l
  induction l with
  | nil => intro _ index currentY page b hb; simp [detailLoop] at hb
  | cons obs rest ih =>
    intro hfit index currentY page b hb
    have hobs : totalNeeded obs.images.length ≤ P.pageHeight - 40 :=
      hfit obs (by simp)
    have hrest : ∀ o ∈ rest, totalNeeded o.images.length ≤ P.pageHeight - 40 :=
      fun o ho => hfit o (by simp [ho])
    rw [detailLoop] at hb
    by_cases hbr : currentY + totalNeeded obs.images.length > P.pageHeight - 20
    · simp only [hbr, if_pos, List.mem_cons] at hb
      rcases hb with hb | hb
      · subst hb
        simp only
        linarith
      · exact ih hrest _ _ _ b hb
    · simp only [hbr, if_neg, List.mem_cons, not_false_iff] at hb
      rcases hb with hb | hb
      · subst hb
        simp only
        linarith [not_lt.mp hbr]
      · exact ih hrest _ _ _ b hb

/-- Helper: the image grid height is never negative. -/
theorem totalImgHeight_nonneg (n : ℕ) : 0 ≤ totalImgHeight n := by
  unfold totalImgHeight
  split
  · simp only [imgSize, imgSpacing]
    positivity
  · exact le_refl 0

/-- CLAIM C3 (amended): before anything of a finding's block is drawn, the
engine computes `totalNeeded = 40 + imageGridHeight + 10` — a height that
covers the header box and the image grid but NOT the wrapped description —
and compares it against the space left above the bottom margin; when it does
not fit, a new page starts and the cursor resets to 20 before drawing. As a
consequence the header box and the image grid never cross the bottom margin
(whenever each block's computed height fits a fresh page), but the wrapped
description is absent from the computation and can extend past the margin. -/
theorem C3_page_breaks (P : DetailParams) (observations : List Observation)
    (hfit : ∀ o ∈ observations, totalNeeded o.images.length ≤ P.pageHeight - 40) :
    ∀ b ∈ layoutDetails P observations,
      b.startY + totalNeeded b.imgCount ≤ P.pageHeight - 20 ∧
      headerBottom b ≤ P.pageHeight - 20 ∧
      imagesBottom b ≤ P.pageHeight - 20 := by
  intro b hb
  have h := detailLoop_fits P observations hfit 0 30 0 b hb
  refine ⟨h, ?_, ?_⟩
  · have hr := totalImgHeight_nonneg b.imgCount
    have : headerBottom b ≤ b.startY + totalNeeded b.imgCount := by
      unfold headerBottom totalNeeded
      linarith
    linarith
  · have : imagesBottom b ≤ b.startY + totalNeeded b.imgCount := by
      unfold imagesBottom totalNeeded totalImgHeight
      split
      · simp only [imgSpacing]
        linarith
      · rename_i hzero
        have hz : imgRows b.imgCount = 0 := by omega
        rw [hz]
        norm_num [imgSize, imgSpacing, rowHeight]
    linarith

/-- Layout parameters for the C3 counterexample: jsPDF's default page height
(A4, about 297 units), a line height of 4 units, and a note that the external
wrapping measure splits into 100 lines. -/
def P3 : DetailParams :=
  { pageHeight := 297, lineH := 4, wrapCount := fun _ => 100 }

/-- A finding with a very long description and no photos. -/
def obsLongNote : Observation :=
  { id := "obs-long", note := "long description", priority := .medium,
    planId := none, coords := none, images := [], tags := [], trade := "",
    responsibleParty := "GC", recommendedAction := "", timestamp := 0 }

/-- Counterexample to C3 as stated: the height compared before placement
excludes the wrapped description, so a finding whose note wraps to 100 lines is
kept on the current page (its computed need, 50, fits) while its drawn text
reaches 454 — past both the bottom margin (277) and the page edge (297). The
block's content therefore does cross the page boundary. -/
theorem C3_page_breaks_counterexample :
    layoutDetails P3 [obsLongNote] =
      [{ page := 0, startY := 30, num := 1, noteLines := 100, imgCount := 0 }] ∧
    blockBottom P3 { page := 0, startY := 30, num := 1, noteLines := 100, imgCount := 0 } = 454 ∧
    ¬ (blockBottom P3 { page := 0, startY := 30, num := 1, noteLines := 100, imgCount := 0 }
        ≤ P3.pageHeight - 20) ∧
    ¬ (blockBottom P3 { page := 0, startY := 30, num := 1, noteLines := 100, imgCount := 0 }
        ≤ P3.pageHeight) := by
  refine ⟨?_, ?_, ?_, ?_⟩ <;>
    norm_num [layoutDetails, detailLoop, P3, obsLongNote, totalNeeded, totalImgHeight,
      imgRows, rowHeight, imgSize, imgSpacing, blockBottom, headerBottom, textBottom,
      imagesBottom]

/-- First witness finding for C3: five photos. -/
def obsFivePhotos : Observation :=
  { obsLongNote with id := "w1", images := ["a", "b", "c", "d", "e"] }

/-- Second witness finding for C3: five more photos. -/
def obsFivePhotosB : Observation :=
  { obsLongNote with id := "w2", images := ["f", "g", "h", "i", "j"] }

/-- Witness for C3 (amended) on two findings with 5 photos each. -/
theorem C3_page_breaks_witness :
    (∀ o ∈ [obsFivePhotos, obsFivePhotosB],
       totalNeeded o.images.length ≤ P3.pageHeight - 40) ∧
    (∀ b ∈ layoutDetails P3 [obsFivePhotos, obsFivePhotosB],
      b.startY + totalNeeded b.imgCount ≤ P3.pageHeight - 20 ∧
      headerBottom b ≤ P3.pageHeight - 20 ∧
      imagesBottom b ≤ P3.pageHeight - 20) :=
  ⟨by
    intro o ho
    fin_cases ho <;>
      norm_num [obsFivePhotos, obsFivePhotosB, obsLongNote, totalNeeded, totalImgHeight,
        imgRows, rowHeight, imgSize, imgSpacing, P3],
   C3_page_breaks P3 _ (by
    intro o ho
    fin_cases ho <;>
      norm_num [obsFivePhotos, obsFivePhotosB, obsLongNote, totalNeeded, totalImgHeight,
        imgRows, rowHeight, imgSize, imgSpacing, P3])⟩

/-- Helper: the placement the loop computes (page, cursor position, heading
number, image count) depends only on the image counts of the observations,
never on their notes. -/
theorem detailLoop_placement_by_images (P : DetailParams) :
    ∀ (l l' : List Observation),
      l.map (fun o => o.images.length) = l'.map (fun o => o.images.length) →
      ∀ (index : ℕ) (currentY : ℚ) (page : ℕ),
        (detailLoop P l index currentY page).map
            (fun b => (b.page, b.startY, b.num, b.imgCount)) =
          (detailLoop P l' index currentY page).map
            (fun b => (b.page, b.startY, b.num, b.imgCount)) := by
  intro l
  induction l with
  | nil =>
    intro l' hmap index currentY page
    cases l' with
    | nil => rfl
    | cons o t => simp at hmap
  | cons obs rest ih =>
    intro l' hmap index currentY page
    cases l' with
    | nil => simp at hmap
    | cons obs' rest' =>
      simp only [List.map_cons, List.cons.injEq] at hmap
      obtain ⟨hlen, hrest⟩ := hmap
      rw [detailLoop, detailLoop]
      simp only [List.map_cons, hlen, List.cons.injEq]
      exact ⟨trivial, ih rest' hrest _ _ _⟩

/-- CLAIM C4 (amended): the description height that enters the placement
decision is NOT the wrapped-line height — the decision compares
`totalNeeded = 40 + imageGridHeight + 10`, in which the description only
occupies part of the fixed 40-unit header box. The wrapped line count is
measured only when the text is drawn, after placement: two observation lists
with identical image counts receive identical placements regardless of how
many lines their notes wrap to. -/
theorem C4_text_height_placement (P : DetailParams) (l l' : List Observation)
    (himg : l.map (fun o => o.images.length) = l'.map (fun o => o.images.length)) :
    (layoutDetails P l).map (fun b => (b.page, b.startY, b.num, b.imgCount)) =
      (layoutDetails P l').map (fun b => (b.page, b.startY, b.num, b.imgCount)) :=
  detailLoop_placement_by_images P l l' himg 0 30 0

/-- Layout parameters for the C4 counterexample: the external wrap measure
returns 100 lines for the long note and 1 line for any other. -/
def P4 : DetailParams :=
  { pageHeight := 297, lineH := 4,
    wrapCount := fun s => if s = "long note" then 100 else 1 }

/-- A finding whose note wraps to 100 lines under `P4`. -/
def obsNoteLong : Observation := { obsLongNote with note := "long note" }

/-- A finding whose note wraps to a single line under `P4`. -/
def obsNoteShort : Observation := { obsLongNote with note := "ok" }

/-- Counterexample to C4 as stated: a 100-line note and a 1-line note are
placed identically (page 0, cursor 30) even though the claimed height
`numberOfWrappedLines * lineHeight` of the long note, 400, exceeds the
remaining space 297 - 20 - 30 = 247; had that height entered the decision the
long block would have been deferred to a new page. The wrapped-line height is
computed at drawing time, after placement. -/
theorem C4_text_height_placement_counterexample :
    layoutDetails P4 [obsNoteLong] =
      [{ page := 0, startY := 30, num := 1, noteLines := 100, imgCount := 0 }] ∧
    layoutDetails P4 [obsNoteShort] =
      [{ page := 0, startY := 30, num := 1, noteLines := 1, imgCount := 0 }] ∧
    (P4.wrapCount obsNoteLong.note : ℚ) * P4.lineH = 400 ∧
    (30 : ℚ) + (P4.wrapCount obsNoteLong.note : ℚ) * P4.lineH > P4.pageHeight - 20 := by
  refine ⟨?_, ?_, ?_, ?_⟩ <;>
    norm_num [layoutDetails, detailLoop, P4, obsNoteLong, obsNoteShort, obsLongNote,
      totalNeeded, totalImgHeight, imgRows, rowHeight, imgSize, imgSpacing] <;>
    decide

/-- Witness for C4 (amended) on the two notes of the counterexample. -/
theorem C4_text_height_placement_witness :
    ([obsNoteLong].map (fun o => o.images.length) =
      [obsNoteShort].map (fun o => o.images.length)) ∧
    (layoutDetails P4 [obsNoteLong]).map (fun b => (b.page, b.startY, b.num, b.imgCount)) =
      (layoutDetails P4 [obsNoteShort]).map (fun b => (b.page, b.startY, b.num, b.imgCount)) :=
  ⟨by norm_num [obsNoteLong, obsNoteShort, obsLongNote],
   C4_text_height_placement P4 [obsNoteLong] [obsNoteShort]
     (by norm_num [obsNoteLong, obsNoteShort, obsLongNote])⟩

/-- Helper: the `i`-th block the loop emits is numbered `index + i + 1`. -/
theorem detailLoop_num (P : DetailParams) :
    ∀ (l : List Observation) (index : ℕ) (currentY : ℚ) (page : ℕ) (i : ℕ),
      i < l.length →
      ∃ b, (detailLoop P l index currentY page)[i]? = some b ∧ b.num = index + i + 1 := by
  intro l
  induction l with
  | nil => intro _ _ _ i hi; simp at hi
  | cons obs rest ih =>
    intro index currentY page i hi
    cases i with
    | zero =>
      rw [detailLoop]
      simp only [List.getElem?_cons_zero]
      exact ⟨_, rfl, rfl⟩
    | succ n =>
      rw [detailLoop]
      simp only [List.getElem?_cons_succ]
      obtain ⟨b, h1, h2⟩ := ih (index + 1) _ _ n (by simpa using hi)
      exact ⟨b, h1, by omega⟩

/-- Stable descending-by-timestamp insertion: an element passes items with a
strictly greater timestamp and stops before the rest, so earlier-stored items
stay first among equal timestamps, matching the stable `Array.sort`. -/
def insertByTimestampDesc (o : Observation) : List Observation → List Observation
  | [] => [o]
  | x :: xs => if x.timestamp > o.timestamp then x :: insertByTimestampDesc o xs
               else o :: x :: xs

/-- Browsing display order of the findings list (src/App.tsx lines 91-101,
`filteredObservations`), modelled at the empty search query: `includes("")`
holds for every string, so the filter keeps every observation, and the list is
then sorted by `(a, b) => b.timestamp - a.timestamp`, i.e. newest first. -/
def filteredObservations (observations : List Observation) : List Observation :=
  observations.foldr insertByTimestampDesc []

/-- CLAIM C7: the number drawn on an observation's map pin
(`observations.indexOf(obs) + 1`, src/App.tsx line 319) and the number printed
in its detail-section header (the loop index plus one, src/App.tsx line 420)
are both its 1-based position in the project's stored observations sequence —
not a position derived from priority, alphabetical order, or the browsing UI's
timestamp-sorted display order (which sorts `filteredObservations` by recency
while still labelling from the stored list). -/
theorem C7_finding_numbers (P : DetailParams) (observations : List Observation)
    (hnd : observations.Nodup) (i : ℕ) (hi : i < observations.length) :
    pinLabel observations observations[i] = i + 1 ∧
    ∃ b, (layoutDetails P observations)[i]? = some b ∧ b.num = i + 1 := by
  constructor
  · unfold pinLabel
    rw [List.indexOf_getElem hnd i hi]
  · simpa using detailLoop_num P observations 0 30 0 i hi

/-- Observation stored first (older timestamp, critical priority). -/
def obsEarly : Observation :=
  { obsLongNote with
    id := "early", note := "alpha finding", priority := .critical, timestamp := 100 }

/-- Observation stored second (newer timestamp, low priority). -/
def obsLate : Observation :=
  { obsLongNote with
    id := "late", note := "beta finding", priority := .low, timestamp := 200 }

/-- Witness for C7 on a two-element store whose browsing display order
(timestamp descending) is the reverse of the stored order: the pin labels and
detail numbers still follow the stored order 1, 2. -/
theorem C7_finding_numbers_witness :
    ([obsEarly, obsLate].Nodup) ∧
    (0 < [obsEarly, obsLate].length) ∧ (1 < [obsEarly, obsLate].length) ∧
    (pinLabel [obsEarly, obsLate] obsEarly = 0 + 1 ∧
      ∃ b, (layoutDetails P3 [obsEarly, obsLate])[0]? = some b ∧ b.num = 0 + 1) ∧
    (pinLabel [obsEarly, obsLate] obsLate = 1 + 1 ∧
      ∃ b, (layoutDetails P3 [obsEarly, obsLate])[1]? = some b ∧ b.num = 1 + 1) ∧
    filteredObservations [obsEarly, obsLate] = [obsLate, obsEarly] := by
  refine ⟨by decide, by norm_num, by norm_num,
    C7_finding_numbers P3 [obsEarly, obsLate] (by decide) 0 (by norm_num),
    C7_finding_numbers P3 [obsEarly, obsLate] (by decide) 1 (by norm_num), by decide⟩

/-- Cover page contents (src/App.tsx lines 339-370): title, project identity
fields, total findings count and the optional weather block. -/
structure CoverPage where
  title : String
  projectName : String
  location : String
  inspector : String
  totalFindings : ℕ
  weather : Option WeatherData
deriving DecidableEq

/-- One map page (src/App.tsx lines 376-388): the page header names the plan;
the composited raster is placed at (20, 30) with width 170 and height
`min(aspect height, pageHeight - 50)`. -/
structure MapPage where
  planId : String
  planName : String
  image : RenderedPlan
  x : ℚ
  y : ℚ
  drawnWidth : ℚ
  drawnHeight : ℚ
deriving DecidableEq

/-- The assembled report: cover page, map pages, then the detail section. -/
structure Document where
  cover : CoverPage
  mapPages : List MapPage
  detailBlocks : List Block
deriving DecidableEq

/-- Outcome of one `generateReport` invocation (src/App.tsx lines 328-458).
`nothingToExport` is the early return with the "No observations to export"
toast; `hung` models the promise inside `renderPlanWithPins` never settling
(the image element has no `onerror` handler, so a failed decode suspends the
`await` forever — no catch, no finally, no document); `exportFailed` is the
catch branch with the "Export failed" toast; `saved` is the completed
document handed to `doc.save`. -/
inductive GenResult
  | nothingToExport
  | hung
  | exportFailed
  | saved (doc : Document)
deriving DecidableEq

/-- Map-page phase of the assembler (src/App.tsx lines 372-388): iterate plans
in stored order; skip a plan whose associated-observation filter
(`o.planId === plan.id`) is empty; otherwise composite it and place the result
at width 170, height capped at `pageHeight - 50`. A failed decode propagates
as `none` — the run never completes. -/
def buildMapPages (decode : String → Option (ℚ × ℚ)) (pageHeight : ℚ)
    (observations : List Observation) : List FloorPlan → Option (List MapPage)
  | [] => some []
  | plan :: rest =>
    let planObs := observations.filter fun o => o.planId == some plan.id
    if planObs.length = 0 then buildMapPages decode pageHeight observations rest
    else
      match renderPlanWithPins decode observations plan planObs with
      | none => none
      | some img =>
        match buildMapPages decode pageHeight observations rest with
        | none => none
        | some pages =>
          some ({ planId := plan.id, planName := plan.name, image := img,
                  x := 20, y := 30, drawnWidth := 170,
                  drawnHeight := min (img.height * 170 / img.width) (pageHeight - 50) }
                :: pages)

/-- Cover page assembly (src/App.tsx lines 339-370). -/
def coverPage (project : ProjectInfo) (weather : Option WeatherData)
    (totalFindings : ℕ) : CoverPage :=
  { title := "SITE INSPECTION REPORT", projectName := project.name,
    location := project.location, inspector := project.inspector,
    totalFindings := totalFindings, weather := weather }

/-- Document Assembler (src/App.tsx lines 328-458, `generateReport`): bail out
with the distinct "nothing to export" outcome when there are no observations;
otherwise emit the cover page, the map pages (hanging forever if any needed
plan image fails to decode) and the detail section. -/
def generateReport (decode : String → Option (ℚ × ℚ)) (project : ProjectInfo)
    (weather : Option WeatherData) (P : DetailParams) (plans : List FloorPlan)
    (observations : List Observation) : GenResult :=
  if observations.length = 0 then .nothingToExport
  else
    match buildMapPages decode P.pageHeight observations plans with
    | none => .hung
    | some mp =>
      .saved { cover := coverPage project weather observations.length,
               mapPages := mp,
               detailBlocks := layoutDetails P observations }

/-- CLAIM C8: with zero observations the generation call returns the distinct
"nothing to export" outcome — no document is produced — and that outcome is a
different signal from a render error (the catch branch) and from any saved
document. -/
theorem C8_nothing_to_export (decode : String → Option (ℚ × ℚ))
    (project : ProjectInfo) (weather : Option WeatherData) (P : DetailParams)
    (plans : List FloorPlan) :
    generateReport decode project weather P plans [] = .nothingToExport ∧
    (∀ doc : Document,
      generateReport decode project weather P plans [] ≠ .saved doc) ∧
    GenResult.nothingToExport ≠ GenResult.exportFailed := by
  refine ⟨rfl, ?_, by simp⟩
  intro doc
  simp [generateReport]

/-- A plan's associated-observation test (src/App.tsx lines 373-374:
`observations.filter(o => o.planId === plan.id)` being nonempty). -/
def planHasFindings (observations : List Observation) (plan : FloorPlan) : Bool :=
  (observations.filter fun o => o.planId == some plan.id).length != 0

/-- Helper: when every image decodes, the map-page phase completes and emits
exactly one page per plan with at least one associated finding, in the plans'
stored order. -/
theorem buildMapPages_ids (decode : String → Option (ℚ × ℚ)) (pageHeight : ℚ)
    (observations : List Observation) (hdec : ∀ s, (decode s).isSome) :
    ∀ plans : List FloorPlan, ∃ mp,
      buildMapPages decode pageHeight observations plans = some mp ∧
      mp.map (fun p => p.planId) =
        (plans.filter (planHasFindings observations)).map (fun plan => plan.id) := by
  intro plans
  induction plans with
  | nil => exact ⟨[], rfl, rfl⟩
  | cons plan rest ih =>
    obtain ⟨mp, hmp, hids⟩ := ih
    by_cases h : (observations.filter fun o => o.planId == some plan.id).length = 0
    · refine ⟨mp, ?_, ?_⟩
      · rw [buildMapPages, if_pos h]
        exact hmp
      · rw [List.filter_cons]
        have hpred : planHasFindings observations plan = false := by
          simp [planHasFindings, h]
        rw [hpred]
        simpa using hids
    · obtain ⟨wh, hd⟩ := Option.isSome_iff_exists.mp (hdec plan.imageData)
      obtain ⟨w, hgt⟩ := wh
      have hrender : ∃ img, renderPlanWithPins decode observations plan
          (observations.filter fun o => o.planId == some plan.id) = some img := by
        rw [renderPlanWithPins, hd]
        exact ⟨_, rfl⟩
      obtain ⟨img, himg⟩ := hrender
      refine ⟨{ planId := plan.id, planName := plan.name, image := img, x := 20, y := 30,
                drawnWidth := 170,
                drawnHeight := min (img.height * 170 / img.width) (pageHeight - 50) } :: mp,
              ?_, ?_⟩
      · rw [buildMapPages, if_neg h, himg, hmp]
      · rw [List.filter_cons]
        have hpred : planHasFindings observations plan = true := by
          simp [planHasFindings, h]
        rw [hpred]
        simpa using hids

/-- CLAIM C6: a successful generation run iterates floor plans in their stored
order and emits exactly one map page per plan with at least one associated
finding; a plan with no associated findings produces no page. -/
theorem C6_map_pages (decode : String → Option (ℚ × ℚ)) (project : ProjectInfo)
    (weather : Option WeatherData) (P : DetailParams) (plans : List FloorPlan)
    (observations : List Observation) (hdec : ∀ s, (decode s).isSome)
    (hne : observations.length ≠ 0) :
    ∃ doc, generateReport decode project weather P plans observations = .saved doc ∧
      doc.mapPages.map (fun p => p.planId) =
        (plans.filter (planHasFindings observations)).map (fun plan => plan.id) := by
  obtain ⟨mp, hmp, hids⟩ := buildMapPages_ids decode P.pageHeight observations hdec plans
  refine ⟨{ cover := coverPage project weather observations.length, mapPages := mp,
            detailBlocks := layoutDetails P observations }, ?_, ?_⟩
  · rw [generateReport, if_neg hne, hmp]
  · simpa using hids

/-- Decoder that succeeds on every image, at dimensions 100 by 80. -/
def decodeAll : String → Option (ℚ × ℚ) := fun _ => some (100, 80)

/-- Witness plans: three stored floor plans. -/
def planOne : FloorPlan := { id := "p1", name := "Level 1", imageData := "img1" }

/-- Second stored plan — no finding will reference it. -/
def planTwo : FloorPlan := { id := "p2", name := "Level 2", imageData := "img2" }

/-- Third stored plan. -/
def planThree : FloorPlan := { id := "p3", name := "Level 3", imageData := "img3" }

/-- A finding pinned on plan `p1`. -/
def obsOnPlanOne : Observation :=
  { obsLongNote with id := "o1", planId := some "p1", coords := some ⟨25, 75⟩ }

/-- A finding pinned on plan `p3`. -/
def obsOnPlanThree : Observation :=
  { obsLongNote with id := "o3", planId := some "p3", coords := some ⟨50, 10⟩ }

/-- Witness project record. -/
def projectW : ProjectInfo :=
  { id := "prj", name := "Site A", location := "City, State", inspector := "Kim",
    emailTo := "", lastModified := 0 }

/-- Witness for C6: three plans of which only `p1` and `p3` have findings —
exactly two map pages come out, for `p1` then `p3`, in stored order. -/
theorem C6_map_pages_witness :
    (∀ s, (decodeAll s).isSome) ∧
    ([obsOnPlanOne, obsOnPlanThree].length ≠ 0) ∧
    (∃ doc, generateReport decodeAll projectW none P3 [planOne, planTwo, planThree]
        [obsOnPlanOne, obsOnPlanThree] = .saved doc ∧
      doc.mapPages.map (fun p => p.planId) =
        ([planOne, planTwo, planThree].filter
            (planHasFindings [obsOnPlanOne, obsOnPlanThree])).map (fun plan => plan.id)) ∧
    ([planOne, planTwo, planThree].filter
        (planHasFindings [obsOnPlanOne, obsOnPlanThree])).map (fun plan => plan.id) =
      ["p1", "p3"] :=
  ⟨fun s => rfl, by norm_num,
   C6_map_pages decodeAll projectW none P3 [planOne, planTwo, planThree]
     [obsOnPlanOne, obsOnPlanThree] (fun s => rfl) (by norm_num),
   by decide⟩

/-- Decoder for the C2 scenario: one image payload decodes, the other is
corrupt and never fires `onload`. -/
def decodeGoodOnly : String → Option (ℚ × ℚ) :=
  fun s => if s = "img-good" then some (100, 80) else none

/-- A plan whose base image is corrupt. -/
def planCorrupt : FloorPlan := { id := "pc", name := "Corrupt Plan", imageData := "img-bad" }

/-- A plan whose base image decodes fine. -/
def planGood : FloorPlan := { id := "pg", name := "Good Plan", imageData := "img-good" }

/-- A finding pinned on the corrupt plan. -/
def obsOnCorrupt : Observation :=
  { obsLongNote with id := "oc", planId := some "pc", coords := some ⟨10, 20⟩ }

/-- A finding pinned on the good plan. -/
def obsOnGood : Observation :=
  { obsLongNote with id := "og", planId := some "pg", coords := some ⟨30, 40⟩ }

/-- CLAIM C2 is violated by the code: `renderPlanWithPins` resolves its promise
only inside `img.onload` and installs no `onerror` handler, so when one plan's
base image fails to decode the `await` in `generateReport` suspends forever.
Nothing is skipped and nothing further is produced: with a corrupt first plan
and a perfectly good second plan (both with findings), the run hangs — the
finished document with the cover page, the other map page and the detail
section never exists. -/
theorem C2_decode_failure_hangs :
    generateReport decodeGoodOnly projectW none P3 [planCorrupt, planGood]
        [obsOnCorrupt, obsOnGood] = .hung ∧
    (decodeGoodOnly planGood.imageData).isSome = true ∧
    (decodeGoodOnly planCorrupt.imageData).isSome = false ∧
    [obsOnCorrupt, obsOnGood].length ≠ 0 ∧
    planHasFindings [obsOnCorrupt, obsOnGood] planCorrupt = true ∧
    planHasFindings [obsOnCorrupt, obsOnGood] planGood = true := by
  refine ⟨?_, by decide, by decide, by decide, by decide, by decide⟩
  decide

/-- Editor operations on the observation being edited (src/App.tsx lines
1034-1053 and 888): the photo capture input is rendered only while the
observation has fewer than 5 images, but when it fires it appends every file
of the (multi-select) file list; deleting removes the photo at one index;
annotating replaces the photo at one index. -/
inductive EditorOp
  | addPhotos (files : List String)
  | deletePhoto (i : ℕ)
  | annotate (i : ℕ) (data : String)

/-- Apply one editor operation (src/App.tsx lines 1045, 1051, 888). -/
def applyOp (obs : Observation) : EditorOp → Observation
  | .addPhotos files =>
    if obs.images.length < 5 then { obs with images := obs.images ++ files } else obs
  | .deletePhoto i => { obs with images := obs.images.eraseIdx i }
  | .annotate i data => { obs with images := obs.images.set i data }

/-- A fresh observation as the editor creates it (src/App.tsx lines 495-508,
`startNewObservation`). -/
def startNewObservation (id : String) (planId : Option String)
    (coords : Option Coordinates) (now : ℤ) : Observation :=
  { id := id, note := "", priority := .medium, planId := planId, coords := coords,
    images := [], tags := [], trade := "", responsibleParty := "GC",
    recommendedAction := "", timestamp := now }

/-- CLAIM C9 is violated by the code: the capture input's visibility guard
checks `images.length < 5` but its handler appends every file of a multi-file
selection without re-checking the cap. From a fresh observation, capturing 4
photos at once and then 3 more at once yields 7 stored photos — the guard
passed (4 < 5) yet the result exceeds the documented maximum of 5. -/
theorem C9_photo_cap_violated :
    (applyOp (startNewObservation "f1" none none 0)
        (.addPhotos ["a", "b", "c", "d"])).images.length = 4 ∧
    4 < 5 ∧
    (applyOp (applyOp (startNewObservation "f1" none none 0)
        (.addPhotos ["a", "b", "c", "d"]))
        (.addPhotos ["e", "f", "g"])).images.length = 7 ∧
    ¬ (7 ≤ 5) := by
  refine ⟨by decide, by norm_num, by decide, by norm_num⟩

/-- Helper: every page the map-page phase emits carries the fixed placement
the source hardcodes — position (20, 30), width 170, height
`min(aspect height, pageHeight - 50)`. -/
theorem buildMapPages_shape (decode : String → Option (ℚ × ℚ)) (pageHeight : ℚ)
    (observations : List Observation) :
    ∀ (plans : List FloorPlan) (mpl : List MapPage),
      buildMapPages decode pageHeight observations plans = some mpl →
      ∀ mp ∈ mpl, mp.x = 20 ∧ mp.y = 30 ∧ mp.drawnWidth = 170 ∧
        mp.drawnHeight = min (mp.image.height * 170 / mp.image.width) (pageHeight - 50) := by
  intro plans
  induction plans with
  | nil =>
    intro mpl hm mp hmp
    rw [buildMapPages] at hm
    injection hm with hm
    subst hm
    simp at hmp
  | cons plan rest ih =>
    intro mpl hm mp hmp
    rw [buildMapPages] at hm
    split at hm
    · exact ih mpl hm mp hmp
    · split at hm
      · exact absurd hm (by simp)
      · split at hm
        · exact absurd hm (by simp)
        · injection hm with hm
          subst hm
          rcases List.mem_cons.mp hmp with hh | hh
          · subst hh
            exact ⟨rfl, rfl, rfl, rfl⟩
          · rename_i pages hpages
            exact ih pages hpages mp hh

/-- CLAIM C10: on every map page of a saved document the composited plan image
sits at the fixed content width 170 and its drawn height is
`min(aspect-preserving height, pageHeight - 50)`; the image never reaches past
the bottom margin, and when the cap binds the height is cut below the
aspect-preserving height while the width stays 170 — the image is vertically
compressed rather than narrowed. -/
theorem C10_map_page_image (decode : String → Option (ℚ × ℚ))
    (project : ProjectInfo) (weather : Option WeatherData) (P : DetailParams)
    (plans : List FloorPlan) (observations : List Observation) (doc : Document)
    (hdoc : generateReport decode project weather P plans observations = .saved doc) :
    ∀ mp ∈ doc.mapPages,
      mp.drawnWidth = 170 ∧ mp.x = 20 ∧ mp.y = 30 ∧
      mp.drawnHeight = min (mp.image.height * 170 / mp.image.width) (P.pageHeight - 50) ∧
      mp.y + mp.drawnHeight ≤ P.pageHeight - 20 ∧
      (mp.image.height * 170 / mp.image.width > P.pageHeight - 50 →
        mp.drawnHeight < mp.image.height * 170 / mp.image.width ∧ mp.drawnWidth = 170) := by
  have hbuild : ∃ mpl, buildMapPages decode P.pageHeight observations plans = some mpl ∧
      doc.mapPages = mpl := by
    rw [generateReport] at hdoc
    split at hdoc
    · exact absurd hdoc (by simp)
    · split at hdoc
      · exact absurd hdoc (by simp)
      · rename_i mpl hmpl
        injection hdoc with hdoc
        subst hdoc
        exact ⟨mpl, hmpl, rfl⟩
  obtain ⟨mpl, hmpl, heq⟩ := hbuild
  intro mp hmp
  rw [heq] at hmp
  obtain ⟨hx, hy, hw, hh⟩ :=
    buildMapPages_shape decode P.pageHeight observations plans mpl hmpl mp hmp
  refine ⟨hw, hx, hy, hh, ?_, ?_⟩
  · rw [hy, hh]
    have := min_le_right (mp.image.height * 170 / mp.image.width) (P.pageHeight - 50)
    linarith
  · intro hcap
    refine ⟨?_, hw⟩
    rw [hh, min_eq_right (le_of_lt hcap)]
    exact hcap

/-- Decoder for the C10 witness: a tall plan image, 100 wide by 300 high. -/
def decodeTall : String → Option (ℚ × ℚ) := fun _ => some (100, 300)

/-- The tall plan. -/
def planTall : FloorPlan := { id := "pt", name := "Tall Plan", imageData := "img-tall" }

/-- A finding associated with the tall plan (no pin coordinates). -/
def obsOnTall : Observation := { obsLongNote with id := "ot", planId := some "pt" }

/-- The document the C10 witness run produces: the aspect-preserving height
would be `300 * 170 / 100 = 510`, which the cap cuts to `297 - 50 = 247`. -/
def docTall : Document :=
  { cover := { title := "SITE INSPECTION REPORT", projectName := "Site A",
               location := "City, State", inspector := "Kim", totalFindings := 1,
               weather := none },
    mapPages := [{ planId := "pt", planName := "Tall Plan",
                   image := { width := 100, height := 300, pins := [] },
                   x := 20, y := 30, drawnWidth := 170, drawnHeight := 247 }],
    detailBlocks := [{ page := 0, startY := 30, num := 1, noteLines := 100,
                       imgCount := 0 }] }

/-- The C10 witness run evaluates to `docTall`. -/
theorem docTall_generated :
    generateReport decodeTall projectW none P3 [planTall] [obsOnTall] = .saved docTall := by
  norm_num [generateReport, buildMapPages, renderPlanWithPins, decodeTall, planTall,
    obsOnTall, obsLongNote, projectW, coverPage, layoutDetails, detailLoop, P3,
    totalNeeded, totalImgHeight, imgRows, rowHeight, imgSize, imgSpacing, docTall,
    min_def]

/-- Witness for C10 on the tall plan: the drawn height is the cap 247, below
the aspect height 510, while the width stays 170. -/
theorem C10_map_page_image_witness :
    (generateReport decodeTall projectW none P3 [planTall] [obsOnTall] = .saved docTall) ∧
    (∀ mp ∈ docTall.mapPages,
      mp.drawnWidth = 170 ∧ mp.x = 20 ∧ mp.y = 30 ∧
      mp.drawnHeight = min (mp.image.height * 170 / mp.image.width) (P3.pageHeight - 50) ∧
      mp.y + mp.drawnHeight ≤ P3.pageHeight - 20 ∧
      (mp.image.height * 170 / mp.image.width > P3.pageHeight - 50 →
        mp.drawnHeight < mp.image.height * 170 / mp.image.width ∧ mp.drawnWidth = 170)) :=
  ⟨docTall_generated,
   C10_map_page_image decodeTall projectW none P3 [planTall] [obsOnTall] docTall
     docTall_generated⟩
